import Mathlib

/-!
Shallow embedding of the chat widget `ChatWidget` (src: the React component in
the frontend) — its conversation state machine and request/response lifecycle.

The component state consists of four `useState` cells:
  `isOpen : Bool`, `messages : list of {text, sender}`, `inputValue : String`,
  `isLoading : Bool`.
The async `handleSendMessage` is split into its synchronous phase
(`handleSendMessage`: guard on the trimmed draft, append the user message,
clear the input, set loading, dispatch the POST) and its continuation
(`resolveFetch`: what runs once `fetch`/`response.json()` settles — the
success append, or the catch-block fallback append plus health probe, and
the `finally` clearing of the loading flag).  `pending` counts requests in
flight so that a resolution event only fires when a request is outstanding;
the source has no guard against overlapping requests, so `pending` is a
counter, not a flag.

JavaScript `data.answer` may be `undefined` (the parsed body has no `answer`
field), so a turn's `text` is modelled as `Option String`, `none` standing
for `undefined`.  `fetch` only rejects on network failure; `response.json()`
rejects exactly when the body is not parseable JSON — the HTTP status is
never consulted, which `FetchOutcome` records explicitly via the unused
`ok` flag.
-/

inductive Sender : Type
  | user : Sender
  | bot : Sender
deriving DecidableEq

structure ChatTurn : Type where
  text : Option String
  sender : Sender
deriving DecidableEq

/-- The fixed greeting turn seeding the conversation. -/
def greeting : ChatTurn := ⟨some "Hello! Ask me anything about SMIK.", Sender.bot⟩

/-- The fixed fallback text appended in the catch block. -/
def fallbackText : String := "I'm waking up! Please try again in 10s."

structure WidgetState : Type where
  isOpen : Bool
  messages : List ChatTurn
  inputValue : String
  isLoading : Bool
  pending : Nat
deriving DecidableEq

/-- The initial `useState` values of a freshly mounted widget. -/
def initState : WidgetState :=
  { isOpen := false
    messages := [greeting]
    inputValue := ""
    isLoading := false
    pending := 0 }

/-- Observable network effects issued by the controller. -/
inductive Effect : Type
  | postChat : String → Effect
  | probeHealth : Effect
deriving DecidableEq

/-- JavaScript `String.prototype.trim()`: drop leading and trailing
whitespace.  (Defined structurally over the character list so that the
kernel can evaluate it on concrete inputs.) -/
def jsTrim (s : String) : String :=
  String.mk (((s.data.dropWhile Char.isWhitespace).reverse.dropWhile Char.isWhitespace).reverse)

/-- `toggleChat = () => setIsOpen(!isOpen)`. -/
def toggleChat (s : WidgetState) : WidgetState :=
  { s with isOpen := !s.isOpen }

/-- Synchronous phase of `handleSendMessage`: the trimmed-empty guard, the
append of the user message built from the raw `inputValue`, the clearing of
the input, `setIsLoading(true)`, and the dispatch of the POST whose body is
`{question: userMessage.text}`. -/
def handleSendMessage (s : WidgetState) : WidgetState × List Effect :=
  if jsTrim s.inputValue = "" then (s, [])
  else
    let userMessage : ChatTurn := ⟨some s.inputValue, Sender.user⟩
    ({ s with
        messages := s.messages ++ [userMessage]
        inputValue := ""
        isLoading := true
        pending := s.pending + 1 },
     [Effect.postChat s.inputValue])

/-- How one awaited request settles: the `fetch` promise rejects
(network failure), or a response arrives with HTTP-success flag `ok` and a
body that `response.json()` either fails to parse or parses to an object
whose `answer` field is present or absent. -/
inductive BodyParse : Type
  | invalid : BodyParse
  | object : Option String → BodyParse
deriving DecidableEq

inductive FetchOutcome : Type
  | networkError : FetchOutcome
  | response : Bool → BodyParse → FetchOutcome
deriving DecidableEq

/-- Continuation of `handleSendMessage` after `await fetch` settles.  The
try block appends `{text: data.answer, sender: "bot"}` whenever
`response.json()` parses, without inspecting the HTTP status; the catch
block (fetch rejected, or the body was not parseable JSON) appends the
fixed fallback turn and fires the health probe; `finally` clears the
loading flag.  When no request is outstanding no resolution can occur. -/
def resolveFetch (s : WidgetState) (o : FetchOutcome) : WidgetState × List Effect :=
  if s.pending = 0 then (s, [])
  else
    match o with
    | FetchOutcome.response _ (BodyParse.object ans) =>
        ({ s with
            messages := s.messages ++ [⟨ans, Sender.bot⟩]
            isLoading := false
            pending := s.pending - 1 },
         [])
    | FetchOutcome.networkError =>
        ({ s with
            messages := s.messages ++ [⟨some fallbackText, Sender.bot⟩]
            isLoading := false
            pending := s.pending - 1 },
         [Effect.probeHealth])
    | FetchOutcome.response _ BodyParse.invalid =>
        ({ s with
            messages := s.messages ++ [⟨some fallbackText, Sender.bot⟩]
            isLoading := false
            pending := s.pending - 1 },
         [Effect.probeHealth])

/-- The bot turn that a settling request appends, as a function of the
outcome: the parsed `answer` on the try path, the fallback on the catch
path. -/
def botTurnOf : FetchOutcome → ChatTurn
  | FetchOutcome.response _ (BodyParse.object ans) => ⟨ans, Sender.bot⟩
  | FetchOutcome.networkError => ⟨some fallbackText, Sender.bot⟩
  | FetchOutcome.response _ BodyParse.invalid => ⟨some fallbackText, Sender.bot⟩

/-- Outcomes on which the catch block runs: `fetch` rejected, or
`response.json()` rejected. -/
def isTransportError : FetchOutcome → Bool
  | FetchOutcome.networkError => true
  | FetchOutcome.response _ BodyParse.invalid => true
  | FetchOutcome.response _ (BodyParse.object _) => false

/-- Controller events: the toggle button, typing into the input
(`onChange`), a submit (Send button or the Enter key), and the settling of
an in-flight request. -/
inductive Event : Type
  | toggle : Event
  | setInput : String → Event
  | submit : Event
  | resolve : FetchOutcome → Event

def step (s : WidgetState) : Event → WidgetState × List Effect
  | Event.toggle => (toggleChat s, [])
  | Event.setInput v => ({ s with inputValue := v }, [])
  | Event.submit => handleSendMessage s
  | Event.resolve o => resolveFetch s o

/-- Run a sequence of controller events, accumulating the network effects
issued along the way. -/
def run (s : WidgetState) : List Event → WidgetState × List Effect
  | [] => (s, [])
  | e :: es =>
      let p := step s e
      let q := run p.1 es
      (q.1, p.2 ++ q.2)

/-! ### Helper lemmas -/

/-- Unfolding of the non-empty-draft branch of `handleSendMessage`. -/
theorem handleSendMessage_spec (s : WidgetState) (h : ¬ jsTrim s.inputValue = "") :
    handleSendMessage s
      = ({ s with
            messages := s.messages ++ [⟨some s.inputValue, Sender.user⟩]
            inputValue := ""
            isLoading := true
            pending := s.pending + 1 },
         [Effect.postChat s.inputValue]) := by
  simp [handleSendMessage, h]

/-- Whenever a request is outstanding, its resolution appends exactly the
bot turn determined by the outcome. -/
theorem resolveFetch_messages (s : WidgetState) (o : FetchOutcome) (h : s.pending ≠ 0) :
    (resolveFetch s o).1.messages = s.messages ++ [botTurnOf o] := by
  cases o with
  | networkError => simp [resolveFetch, h, botTurnOf]
  | response ok body => cases body <;> simp [resolveFetch, h, botTurnOf]

/-- Every single controller event leaves the existing turns in place and at
most appends to the end. -/
theorem step_messages_append (s : WidgetState) (e : Event) :
    ∃ t, (step s e).1.messages = s.messages ++ t := by
  cases e with
  | toggle => exact ⟨[], by simp [step, toggleChat]⟩
  | setInput v => exact ⟨[], by simp [step]⟩
  | submit =>
      by_cases h : jsTrim s.inputValue = ""
      · exact ⟨[], by simp [step, handleSendMessage, h]⟩
      · exact ⟨[⟨some s.inputValue, Sender.user⟩], by simp [step, handleSendMessage, h]⟩
  | resolve o =>
      by_cases h : s.pending = 0
      · exact ⟨[], by simp [step, resolveFetch, h]⟩
      · exact ⟨[botTurnOf o], by simpa [step] using resolveFetch_messages s o h⟩

/-- Every run of controller events only extends the conversation. -/
theorem run_messages_append (s : WidgetState) (es : List Event) :
    ∃ t, (run s es).1.messages = s.messages ++ t := by
  induction es generalizing s with
  | nil => exact ⟨[], by simp [run]⟩
  | cons e es ih =>
      obtain ⟨t₁, h₁⟩ := step_messages_append s e
      obtain ⟨t₂, h₂⟩ := ih (step s e).1
      exact ⟨t₁ ++ t₂, by simp [run, h₂, h₁]⟩

/-! ### Claims -/

/-- C5: for every sequence of controller events, the turn sequence is only
ever extended — its length is monotonically non-decreasing and every
pre-existing turn is unchanged (same text and sender at the same index);
the only mutation is an append at the end. -/
theorem turns_append_only (s : WidgetState) (es : List Event) (i : Nat)
    (hi : i < s.messages.length) :
    (∃ t, (run s es).1.messages = s.messages ++ t)
    ∧ s.messages.length ≤ (run s es).1.messages.length
    ∧ (run s es).1.messages[i]? = s.messages[i]? := by
  obtain ⟨t, ht⟩ := run_messages_append s es
  refine ⟨⟨t, ht⟩, ?_, ?_⟩
  · rw [ht]; simp
  · rw [ht]; exact List.getElem?_append_left hi

theorem turns_append_only_witness :
    0 < initState.messages.length
    ∧ ((∃ t, (run initState [Event.toggle]).1.messages = initState.messages ++ t)
        ∧ initState.messages.length ≤ (run initState [Event.toggle]).1.messages.length
        ∧ (run initState [Event.toggle]).1.messages[0]? = initState.messages[0]?) :=
  ⟨by decide, turns_append_only initState [Event.toggle] 0 (by decide)⟩

/-- C6: a freshly created conversation has the fixed bot greeting at index
0, and the greeting stays at index 0 after every sequence of controller
events. -/
theorem greeting_invariant (es : List Event) :
    initState.messages[0]? = some greeting
    ∧ greeting.sender = Sender.bot
    ∧ greeting.text = some "Hello! Ask me anything about SMIK."
    ∧ (run initState es).1.messages[0]? = some greeting := by
  refine ⟨rfl, rfl, rfl, ?_⟩
  obtain ⟨t, ht⟩ := run_messages_append initState es
  rw [ht]
  simp [initState]

/-- C4: end-to-end success scenario — open the panel, type
"Who is the CEO?", submit, receive a success body answering
"Unmesh Mehta is the CEO."; the final conversation is exactly the
greeting, the user turn, and the bot answer, in that order. -/
theorem scenario_a :
    (run initState [Event.toggle, Event.setInput "Who is the CEO?", Event.submit,
        Event.resolve (FetchOutcome.response true
          (BodyParse.object (some "Unmesh Mehta is the CEO.")))]).1.messages
      = [greeting, ⟨some "Who is the CEO?", Sender.user⟩,
         ⟨some "Unmesh Mehta is the CEO.", Sender.bot⟩] := by decide

/-- C8: submitting an empty or whitespace-only draft is a complete no-op —
state (turns, loading flag, draft) unchanged and no network effect
issued. -/
theorem empty_submit_noop (s : WidgetState) (h : jsTrim s.inputValue = "") :
    step s Event.submit = (s, []) := by
  simp [step, handleSendMessage, h]

theorem empty_submit_noop_witness :
    jsTrim ({ initState with inputValue := "   " } : WidgetState).inputValue = ""
    ∧ step { initState with inputValue := "   " } Event.submit
        = ({ initState with inputValue := "   " }, []) :=
  ⟨by decide, empty_submit_noop { initState with inputValue := "   " } (by decide)⟩

/-- C9: a toggle event only flips the panel-visibility flag — conversation,
draft, loading flag and outstanding-request count are untouched and no
network effect is issued — and the resolution of an in-flight request is
insensitive to the visibility flag: it appends the same bot turn and issues
the same effects whatever the panel state, leaving visibility as the toggle
set it. -/
theorem toggle_independence (s : WidgetState) (o : FetchOutcome) (b : Bool) :
    step s Event.toggle = ({ s with isOpen := !s.isOpen }, [])
    ∧ (resolveFetch { s with isOpen := b } o).1
        = { (resolveFetch s o).1 with isOpen := b }
    ∧ (resolveFetch { s with isOpen := b } o).2 = (resolveFetch s o).2 := by
  refine ⟨rfl, ?_, ?_⟩ <;>
  · by_cases h : s.pending = 0
    · simp [resolveFetch, h]
    · cases o with
      | networkError => simp [resolveFetch, h]
      | response ok body => cases body <;> simp [resolveFetch, h]

/-- C7: for a submission of a non-empty draft, the user turn carrying the
draft is already in place (at index `s.messages.length`) in the state in
which the POST is dispatched; after any further events it is still at that
index, and the bot turn produced by the resolution of an outstanding
request lands at a strictly larger index. -/
theorem user_turn_precedes_answer (s : WidgetState) (es : List Event) (o : FetchOutcome)
    (h : ¬ jsTrim s.inputValue = "")
    (hp : (run (handleSendMessage s).1 es).1.pending ≠ 0) :
    (handleSendMessage s).1.messages[s.messages.length]?
        = some ⟨some s.inputValue, Sender.user⟩
    ∧ (handleSendMessage s).2 = [Effect.postChat s.inputValue]
    ∧ (resolveFetch (run (handleSendMessage s).1 es).1 o).1.messages[s.messages.length]?
        = some ⟨some s.inputValue, Sender.user⟩
    ∧ s.messages.length < (run (handleSendMessage s).1 es).1.messages.length
    ∧ (resolveFetch (run (handleSendMessage s).1 es).1 o).1.messages[
        (run (handleSendMessage s).1 es).1.messages.length]? = some (botTurnOf o) := by
  obtain ⟨t, ht⟩ := run_messages_append (handleSendMessage s).1 es
  have hm : (handleSendMessage s).1.messages
      = s.messages ++ [⟨some s.inputValue, Sender.user⟩] := by
    rw [handleSendMessage_spec s h]
  have hlen : s.messages.length < (run (handleSendMessage s).1 es).1.messages.length := by
    rw [ht, hm]
    simp
  have hidx : (run (handleSendMessage s).1 es).1.messages[s.messages.length]?
      = some ⟨some s.inputValue, Sender.user⟩ := by
    have hlt : s.messages.length
        < (s.messages ++ [(⟨some s.inputValue, Sender.user⟩ : ChatTurn)]).length := by
      simp
    rw [ht, hm, List.getElem?_append_left hlt]
    exact List.getElem?_concat_length s.messages ⟨some s.inputValue, Sender.user⟩
  refine ⟨?_, ?_, ?_, hlen, ?_⟩
  · rw [hm]
    exact List.getElem?_concat_length s.messages ⟨some s.inputValue, Sender.user⟩
  · rw [handleSendMessage_spec s h]
  · rw [resolveFetch_messages _ o hp]
    rw [List.getElem?_append_left hlen]
    exact hidx
  · rw [resolveFetch_messages _ o hp]
    exact List.getElem?_concat_length _ (botTurnOf o)

theorem user_turn_precedes_answer_witness :
    (¬ jsTrim ({ initState with inputValue := "q" } : WidgetState).inputValue = "")
    ∧ ((run (handleSendMessage { initState with inputValue := "q" }).1 []).1.pending ≠ 0)
    ∧ ((handleSendMessage { initState with inputValue := "q" }).1.messages[1]?
          = some ⟨some "q", Sender.user⟩
        ∧ (handleSendMessage { initState with inputValue := "q" }).2
          = [Effect.postChat "q"]
        ∧ (resolveFetch (run (handleSendMessage { initState with inputValue := "q" }).1 []).1
            FetchOutcome.networkError).1.messages[1]? = some ⟨some "q", Sender.user⟩
        ∧ 1 < (run (handleSendMessage { initState with inputValue := "q" }).1 []).1.messages.length
        ∧ (resolveFetch (run (handleSendMessage { initState with inputValue := "q" }).1 []).1
            FetchOutcome.networkError).1.messages[2]?
          = some (botTurnOf FetchOutcome.networkError)) :=
  ⟨by decide, by decide,
    user_turn_precedes_answer { initState with inputValue := "q" } []
      FetchOutcome.networkError (by decide) (by decide)⟩

/-- C10: for every non-empty submission, the question carried by the
dispatched POST is exactly the text of the user turn just appended — the
draft is captured into the user message before the input is cleared, so the
clearing (visible in the post-state) does not affect the dispatched
question. -/
theorem question_matches_user_turn (s : WidgetState) (h : ¬ jsTrim s.inputValue = "") :
    (handleSendMessage s).2 = [Effect.postChat s.inputValue]
    ∧ (handleSendMessage s).1.messages.getLast? = some ⟨some s.inputValue, Sender.user⟩
    ∧ (handleSendMessage s).1.inputValue = "" := by
  rw [handleSendMessage_spec s h]
  exact ⟨rfl, List.getLast?_concat s.messages, rfl⟩

theorem question_matches_user_turn_witness :
    (¬ jsTrim ({ initState with inputValue := "hi there" } : WidgetState).inputValue = "")
    ∧ ((handleSendMessage { initState with inputValue := "hi there" }).2
          = [Effect.postChat "hi there"]
        ∧ (handleSendMessage { initState with inputValue := "hi there" }).1.messages.getLast?
          = some ⟨some "hi there", Sender.user⟩
        ∧ (handleSendMessage { initState with inputValue := "hi there" }).1.inputValue = "") :=
  ⟨by decide, question_matches_user_turn { initState with inputValue := "hi there" } (by decide)⟩

/-- C1 counterexample: the claim — that a non-success (non-2xx) HTTP
response, or a parseable body lacking an answer field, takes the
TransportError path — is false.  A non-2xx response whose body parses to
`{"answer": "x"}` takes the success path (bot turn "x", no fallback, no
probe), and a 2xx response whose body parses but has no answer field
appends a bot turn with undefined text (again no fallback and no
probe). -/
theorem transport_error_counterexample :
    ((run initState [Event.toggle, Event.setInput "q", Event.submit,
        Event.resolve (FetchOutcome.response false (BodyParse.object (some "x")))]).1.messages
      = [greeting, ⟨some "q", Sender.user⟩, ⟨some "x", Sender.bot⟩]
      ∧ (run initState [Event.toggle, Event.setInput "q", Event.submit,
          Event.resolve (FetchOutcome.response false (BodyParse.object (some "x")))]).2
        = [Effect.postChat "q"])
    ∧ ((run initState [Event.toggle, Event.setInput "q", Event.submit,
        Event.resolve (FetchOutcome.response true (BodyParse.object none))]).1.messages
      = [greeting, ⟨some "q", Sender.user⟩, ⟨none, Sender.bot⟩]
      ∧ (run initState [Event.toggle, Event.setInput "q", Event.submit,
          Event.resolve (FetchOutcome.response true (BodyParse.object none))]).2
        = [Effect.postChat "q"]) := by decide

/-- C1 amended: the TransportError path — exactly one bot turn with the
fixed fallback text appended and exactly one liveness probe issued,
regardless of the probe's own outcome — is taken exactly when the fetch
itself rejects (network failure) or the response body is not parseable
JSON; the HTTP status and the presence of the answer field are never
consulted. -/
theorem transport_error_fallback (s : WidgetState) (o : FetchOutcome)
    (hp : s.pending ≠ 0) (he : isTransportError o = true) :
    resolveFetch s o
      = ({ s with
            messages := s.messages ++ [⟨some fallbackText, Sender.bot⟩]
            isLoading := false
            pending := s.pending - 1 },
         [Effect.probeHealth]) := by
  cases o with
  | networkError => simp [resolveFetch, hp]
  | response ok body =>
      cases body with
      | invalid => simp [resolveFetch, hp]
      | object ans => simp [isTransportError] at he

theorem transport_error_fallback_witness :
    (({ initState with pending := 1 } : WidgetState).pending ≠ 0)
    ∧ isTransportError FetchOutcome.networkError = true
    ∧ resolveFetch { initState with pending := 1 } FetchOutcome.networkError
        = ({ initState with
              messages := [greeting, ⟨some fallbackText, Sender.bot⟩]
              isLoading := false
              pending := 0 },
           [Effect.probeHealth]) :=
  ⟨by decide, by decide,
    transport_error_fallback { initState with pending := 1 } FetchOutcome.networkError
      (by decide) (by decide)⟩

/-- C2 counterexample: submissions are not single-flight.  While the first
request is still unresolved (two requests outstanding, nothing resolved
yet), typing a new draft and submitting appends a second user turn. -/
theorem single_flight_counterexample :
    (run initState [Event.toggle, Event.setInput "a", Event.submit,
        Event.setInput "b", Event.submit]).1.messages
      = [greeting, ⟨some "a", Sender.user⟩, ⟨some "b", Sender.user⟩]
    ∧ (run initState [Event.toggle, Event.setInput "a", Event.submit,
        Event.setInput "b", Event.submit]).1.isLoading = true
    ∧ (run initState [Event.toggle, Event.setInput "a", Event.submit,
        Event.setInput "b", Event.submit]).1.pending = 2
    ∧ (run initState [Event.toggle, Event.setInput "a", Event.submit,
        Event.setInput "b", Event.submit]).2
      = [Effect.postChat "a", Effect.postChat "b"] := by decide

/-- C2 amended: while a request is in flight (loading flag true), a second
submit appends no second user turn only when the draft is empty after
trimming — as it is immediately after the first submission cleared it;
with a non-empty draft the second submit does append a second user turn
(and dispatch a second request): there is no single-flight guard. -/
theorem awaiting_submit_behavior (s : WidgetState) (_h : s.isLoading = true) :
    (handleSendMessage s).1.messages
      = (if jsTrim s.inputValue = "" then s.messages
         else s.messages ++ [⟨some s.inputValue, Sender.user⟩])
    ∧ (handleSendMessage s).2
      = (if jsTrim s.inputValue = "" then []
         else [Effect.postChat s.inputValue]) := by
  by_cases hh : jsTrim s.inputValue = "" <;>
    simp [handleSendMessage, hh]

theorem awaiting_submit_behavior_witness :
    (({ initState with isLoading := true, pending := 1, inputValue := "b" } :
        WidgetState).isLoading = true)
    ∧ ((handleSendMessage
          { initState with isLoading := true, pending := 1, inputValue := "b" }).1.messages
        = (if jsTrim "b" = "" then [greeting]
           else [greeting] ++ [⟨some "b", Sender.user⟩])
      ∧ (handleSendMessage
          { initState with isLoading := true, pending := 1, inputValue := "b" }).2
        = (if jsTrim "b" = "" then [] else [Effect.postChat "b"])) :=
  ⟨by decide,
    awaiting_submit_behavior
      { initState with isLoading := true, pending := 1, inputValue := "b" } (by decide)⟩

/-- C3 counterexample: the claim — that the appended user turn carries the
trimmed draft and the dispatched question is the trimmed input — is false.
Submitting the draft "  hi  " appends a user turn whose text is the raw
"  hi  " and dispatches the raw "  hi  " as the question, although its
trim is "hi" and differs from the raw draft. -/
theorem trimmed_submit_counterexample :
    (run initState [Event.toggle, Event.setInput "  hi  ", Event.submit]).1.messages
      = [greeting, ⟨some "  hi  ", Sender.user⟩]
    ∧ (run initState [Event.toggle, Event.setInput "  hi  ", Event.submit]).2
      = [Effect.postChat "  hi  "]
    ∧ jsTrim "  hi  " = "hi"
    ∧ ¬ (("  hi  " : String) = "hi") := by decide

/-- C3 amended: for every submit whose draft is non-empty after trimming,
the appended user turn carries the raw (untrimmed) draft text, the question
dispatched to the transport is that same raw draft, and the draft is
cleared to the empty string at submission time; trimming enters only the
non-emptiness guard. -/
theorem submit_uses_raw_draft (s : WidgetState) (h : ¬ jsTrim s.inputValue = "") :
    (handleSendMessage s).1.messages
      = s.messages ++ [⟨some s.inputValue, Sender.user⟩]
    ∧ (handleSendMessage s).2 = [Effect.postChat s.inputValue]
    ∧ (handleSendMessage s).1.inputValue = "" := by
  rw [handleSendMessage_spec s h]
  exact ⟨rfl, rfl, rfl⟩

theorem submit_uses_raw_draft_witness :
    (¬ jsTrim ({ initState with inputValue := "  hi  " } : WidgetState).inputValue = "")
    ∧ ((handleSendMessage { initState with inputValue := "  hi  " }).1.messages
        = [greeting] ++ [⟨some "  hi  ", Sender.user⟩]
      ∧ (handleSendMessage { initState with inputValue := "  hi  " }).2
        = [Effect.postChat "  hi  "]
      ∧ (handleSendMessage { initState with inputValue := "  hi  " }).1.inputValue = "") :=
  ⟨by decide,
    submit_uses_raw_draft { initState with inputValue := "  hi  " } (by decide)⟩
